import Mathlib

/-!
Shallow embedding of the fact-verification core of the `teapot-facts` service:
`src/app/services/fact_checker.py`, `src/app/services/fact_checker_utils.py`
and the extraction route handler of `src/app/routes/fact_check.py`.

Python strings become `String`, floats become `ℚ` (all the constants involved
are exact decimals), `Dict[str, Any]` metadata becomes an opaque association
list passed through unchanged, and Python exceptions become an explicit
`Except` layer with an error datatype mirroring the `except` clauses of the
source. `dict.get` with a default collapses a missing key and the default
value into one representation, which is faithful because the source never
distinguishes a missing `content` key from an empty string, nor a missing
`metadata` key from an empty mapping.
-/

namespace TeapotFacts

/-- `charsStartWith s pat` is true when `pat` is an initial segment of `s`
(the character-list form of Python's `str.startswith`). -/
def charsStartWith : List Char → List Char → Bool
  | _, [] => true
  | [], _ :: _ => false
  | c :: cs, p :: ps => c == p && charsStartWith cs ps

/-- `charsContains s pat` is true when `pat` occurs contiguously somewhere in
`s`: the character-list form of Python's `pat in s` substring test. -/
def charsContains : List Char → List Char → Bool
  | [], pat => charsStartWith [] pat
  | c :: cs, pat => charsStartWith (c :: cs) pat || charsContains cs pat

/-- Python's substring membership `pat in s`, on `String`. -/
def strContains (s pat : String) : Bool :=
  charsContains s.toList pat.toList

/-- Python's `str.lower()`. Extensionally equal to `String.toLower` (both map
`Char.toLower` over the characters); written via the character list so that
the kernel can evaluate it on literals. -/
def strLower (s : String) : String :=
  ⟨s.data.map Char.toLower⟩

/-- The fixed refusal-phrase list of `contains_refusal_phrases`
(`fact_checker.py` lines 198–207, duplicated in `fact_checker_utils.py`). -/
def refusal_phrases : List String :=
  ["cannot answer",
   "don\x27t have enough information",
   "insufficient context",
   "cannot be determined",
   "not enough information",
   "cannot be verified",
   "I don\x27t know",
   "No information provided"]

/-- `contains_refusal_phrases` (`fact_checker.py` lines 196–209):
`any(phrase.lower() in text.lower() for phrase in refusal_phrases)`. -/
def contains_refusal_phrases (text : String) : Bool :=
  refusal_phrases.any (fun phrase => strContains (strLower text) (strLower phrase))

/-- The fixed uncertainty-marker list of `_estimate_confidence`
(`fact_checker.py` lines 216–225). -/
def uncertainty_markers : List String :=
  ["possibly", "perhaps", "maybe", "might",
   "could be", "appears to be", "seems", "likely"]

/-- `markers_count` of `_estimate_confidence` (`fact_checker.py` lines 227–229):
`sum(1 for marker in uncertainty_markers if marker.lower() in text.lower())`.
Each marker contributes at most 1, however many times it occurs. -/
def markers_count (text : String) : Nat :=
  (uncertainty_markers.map
    (fun marker => if strContains (strLower text) (strLower marker) then 1 else 0)).sum

/-- `_estimate_confidence` (`fact_checker.py` lines 211–238):
base 0.9 with context and 0.3 without, minus 0.1 per counted marker, floored
at 0.1, overridden to exactly 0.1 on a refusal phrase. -/
def estimate_confidence (text : String) (has_context : Bool) : ℚ :=
  let base_confidence : ℚ := if has_context then 9/10 else 3/10
  let confidence := max (1/10) (base_confidence - (1/10) * (markers_count text : ℚ))
  if contains_refusal_phrases text then 1/10 else confidence

/-- Spec-side count of the occurrences of `pat` in `s` (every position where
`pat` starts), written to formalise the spec's "each occurrence" reading. -/
def charsOccurrences : List Char → List Char → Nat
  | [], _ => 0
  | c :: cs, pat =>
    (if charsStartWith (c :: cs) pat then 1 else 0) + charsOccurrences cs pat

/-- Spec-side: total number of case-insensitive occurrences of uncertainty
markers in `text` (the quantity the spec claims is penalised 0.1 each). -/
def total_marker_occurrences (text : String) : Nat :=
  (uncertainty_markers.map
    (fun marker => charsOccurrences (strLower text).toList (strLower marker).toList)).sum

/-- Metadata mappings (`Dict[str, Any]`) are only ever passed through
unchanged, so they are embedded as an opaque association list. -/
abbrev Metadata := List (String × String)

/-- A document as the orchestrator stores it: `doc.get("content", "")` and
`doc.get("metadata", {})` collapse a missing key into the default, so a
document is exactly a content string plus a metadata mapping. -/
structure Document where
  content : String
  metadata : Metadata
deriving DecidableEq, Repr

/-- One entry of the normalized `sources` list. -/
structure SourceEntry where
  text : String
  metadata : Metadata
deriving DecidableEq, Repr

/-- The exception taxonomy of `check_fact`'s `except` clauses: Python
`ConnectionError`, `TimeoutError`, `ValueError` and any other `Exception`,
each carrying its `str(e)` rendering. -/
inductive PyErr where
  | connectionError (msg : String)
  | timeoutError (msg : String)
  | valueError (msg : String)
  | other (msg : String)
deriving DecidableEq, Repr

/-- Python `str(e)` of a caught exception. -/
def PyErr.str : PyErr → String
  | .connectionError msg => msg
  | .timeoutError msg => msg
  | .valueError msg => msg
  | .other msg => msg

/-- One element of the model's fallback `documents` store, as `_get_sources`
dispatches on it: a plain string, an object exposing a `content` attribute
(and optionally `metadata`), a mapping (whose `content` key may be missing,
in which case `str(doc)` is used), or an arbitrary value rendered with
`str`. `raising` stands for an element whose processing raises at runtime
(for example a `content` attribute that is not a string, so that
`len(content)` raises `TypeError`, or an iterator failing at that point). -/
inductive ModelDoc where
  | plainStr (s : String)
  | contentObj (content : String) (metadata : Option Metadata)
  | mapping (content : Option String) (strForm : String) (metadata : Option Metadata)
  | otherVal (strForm : String)
  | raising (e : PyErr)
deriving DecidableEq, Repr

/-- The model's optional `documents` attribute as `_get_sources` probes it:
`absent` when `hasattr(self.model, "documents")` is false, `raises` when
reading the attribute raises a non-`AttributeError` or its value is not
iterable, `avail` when it yields a list of elements. -/
inductive DocsProp where
  | absent
  | raises (e : PyErr)
  | avail (docs : List ModelDoc)
deriving DecidableEq, Repr

/-- The underlying TeapotAI model, abstracted to the operations the fact
checker consumes: `self.model.query(query=..., context=...)`,
`self.model.query(query=...)`, and the optional `documents` attribute.
A call either returns an answer string or raises. -/
structure TeapotModel where
  queryWithContext : String → String → Except PyErr String
  queryNoContext : String → Except PyErr String
  documentsProp : DocsProp

/-- The 200-character source excerpt of `_get_sources`:
`content[:200] + "..." if len(content) > 200 else content`. -/
def truncateText (content : String) : String :=
  if content.length > 200 then content.take 200 ++ "..." else content

/-- Normalization of one fallback document (`_get_sources` lines 268–312),
`none` when processing that element raises. -/
def normalizeModelDoc : ModelDoc → Option SourceEntry
  | .plainStr s => some ⟨truncateText s, []⟩
  | .contentObj content metadata => some ⟨truncateText content, metadata.getD []⟩
  | .mapping content strForm metadata =>
      some ⟨truncateText (content.getD strForm), metadata.getD []⟩
  | .otherVal strForm => some ⟨truncateText strForm, []⟩
  | .raising _ => none

/-- The fallback loop of `_get_sources`: entries are appended one by one, so
when an element raises, the `except` clause leaves the entries appended
before that point in place and the loop stops. -/
def processFallbackDocs : List ModelDoc → List SourceEntry
  | [] => []
  | d :: ds =>
    match normalizeModelDoc d with
    | some entry => entry :: processFallbackDocs ds
    | none => []

/-- `_get_sources` (`fact_checker.py` lines 240–321): stored documents are
used when present; otherwise the model's `documents` attribute is read
best-effort, with every exception caught. -/
def get_sources (stored_documents : List Document) (model : TeapotModel) :
    List SourceEntry :=
  let sources := stored_documents.map
    (fun doc => SourceEntry.mk (truncateText doc.content) doc.metadata)
  if sources.isEmpty then
    match model.documentsProp with
    | .absent => []
    | .raises _ => []
    | .avail docs => if docs.isEmpty then [] else processFallbackDocs docs
  else sources

/-- The dictionary `check_fact` returns: the `error` key is present exactly
on the `_create_error_response` dictionaries. Confidence is a rational
(every constant involved is an exact decimal). -/
structure FactResult where
  error : Option String
  factual : Bool
  answer : String
  confidence : ℚ
  sources : List SourceEntry
deriving DecidableEq, Repr

/-- `_create_error_response` (`fact_checker.py` lines 186–194). -/
def create_error_response (error_message : String) : FactResult :=
  { error := some error_message
    factual := false
    answer := error_message
    confidence := 0
    sources := [] }

/-- The message each `except` clause of `check_fact` formats
(`fact_checker.py` lines 72–85). -/
def check_fact_error_text : PyErr → String
  | .connectionError msg => "Connection error: " ++ msg
  | .timeoutError msg => "Request timed out: " ++ msg
  | .valueError msg => "Invalid input: " ++ msg
  | .other msg => "Error occurred during fact checking: " ++ msg

/-- `_process_result` (`fact_checker.py` lines 323–338). -/
def process_result (model : TeapotModel) (stored_documents : List Document)
    (result : String) (has_context : Bool) : FactResult :=
  { error := none
    factual := !(contains_refusal_phrases result)
    answer := result
    confidence := estimate_confidence result has_context
    sources := get_sources stored_documents model }

/-- `_process_without_context` (`fact_checker.py` lines 178–184); an
exception from the model call propagates to `check_fact`. -/
def process_without_context (model : TeapotModel)
    (stored_documents : List Document) (query : String) :
    Except PyErr FactResult :=
  (model.queryNoContext query).map
    (fun result => process_result model stored_documents result false)

/-- `_process_with_context` (`fact_checker.py` lines 170–176). -/
def process_with_context (model : TeapotModel)
    (stored_documents : List Document) (query context : String) :
    Except PyErr FactResult :=
  (model.queryWithContext query context).map
    (fun result => process_result model stored_documents result true)

/-- `_process_with_documents` (`fact_checker.py` lines 142–168). The second
component is the `self.stored_documents` value after the call: the field is
replaced with this request's documents before the model is invoked, so the
replacement persists even when the model call raises. -/
def process_with_documents (model : TeapotModel) (query : String)
    (documents : List Document) : Except PyErr FactResult × List Document :=
  let stored := documents.map (fun doc => Document.mk doc.content doc.metadata)
  let combined_context :=
    String.intercalate "\n\n" ((stored.map Document.content).filter (fun c => c != ""))
  if combined_context = "" then
    (process_without_context model stored query, stored)
  else
    ((model.queryWithContext query combined_context).map
      (fun result => process_result model stored result true), stored)

/-- The `except` clauses of `check_fact` (`fact_checker.py` lines 72–85):
a raising path is recovered into `_create_error_response`. -/
def recover_errors : Except PyErr FactResult → FactResult
  | .ok r => r
  | .error e => create_error_response (check_fact_error_text e)

/-- `check_fact` (`fact_checker.py` lines 39–85). Takes the model, the
current `self.stored_documents`, and the three arguments (`None` as
`Option.none`); returns the result dictionary together with the
`self.stored_documents` value after the call. Path selection follows the
Python truthiness tests `if not query` / `if documents` / `elif context`. -/
def check_fact (model : TeapotModel) (stored_documents : List Document)
    (query : String) (context : Option String)
    (documents : Option (List Document)) : FactResult × List Document :=
  if query = "" then
    (create_error_response "Query cannot be empty", stored_documents)
  else if (documents.getD []).isEmpty = false then
    let pr := process_with_documents model query (documents.getD [])
    (recover_errors pr.1, pr.2)
  else if (context.getD "") != "" then
    (recover_errors
      (process_with_context model stored_documents query (context.getD "")),
     stored_documents)
  else
    (recover_errors (process_without_context model stored_documents query),
     stored_documents)

/-- What `self.model.extract(...)` hands back, as the route handler's
normalization (`fact_check.py` lines 77–98) dispatches on it: a Pydantic
model instance whose `model_dump()` either yields a field mapping or raises
(carrying its `str(...)` rendering for the fallback), a plain mapping, or an
opaque value rendered with `str`. Field values are abstracted to their
string renderings, since nothing in the route inspects them. -/
inductive ExtractRet where
  | baseModelVal (strForm : String) (dump : Except String (List (String × String)))
  | mappingVal (fields : List (String × String))
  | opaqueVal (strForm : String)
deriving Repr

/-- The return of the service-layer `extract_information`
(`fact_checker.py` lines 87–140): either the model's extraction value, or
the `_create_error_response` dictionary (of which the route only ever reads
the `error` key). -/
inductive ServiceExtractResult where
  | extracted (r : ExtractRet)
  | errorDict (msg : String)
deriving Repr

/-- `extract_information` of the service (`fact_checker.py` lines 87–140),
with the model's `extract` abstracted to a function of the optional query
and the context. Returns the result together with `self.stored_documents`
after the call (replaced only on the documents-without-context branch). -/
def extract_information
    (modelExtract : Option String → String → Except PyErr ExtractRet)
    (stored_documents : List Document) (query context : Option String)
    (documents : Option (List Document)) :
    ServiceExtractResult × List Document :=
  let docsList := documents.getD []
  let takeDocs := docsList.isEmpty = false ∧ (context.getD "") = ""
  let stored := if takeDocs then docsList else stored_documents
  let ctx :=
    if takeDocs then
      String.intercalate "\n\n"
        ((docsList.map Document.content).filter (fun c => c != ""))
    else context.getD ""
  if ctx = "" then
    (.errorDict "Context is required for information extraction", stored)
  else
    match modelExtract (if (query.getD "") = "" then none else query) ctx with
    | .error e => (.errorDict ("Extraction failed: " ++ e.str), stored)
    | .ok r => (.extracted r, stored)

/-- The `/extract` route's response model (`app/models.py`), with the data
mapping abstracted to an association list of string renderings. -/
structure ExtractionResponse where
  success : Bool
  data : Option (List (String × String))
  error : Option String
deriving DecidableEq, Repr

/-- The inner normalization `try` of the route handler (`fact_check.py`
lines 77–98): a failure while building the data dictionary is caught and
answered with `success=True` and the stringified result plus the error
message inside `data`. -/
def normalize_extraction : ExtractRet → ExtractionResponse
  | .baseModelVal _ (.ok fields) =>
      { success := true, data := some fields, error := none }
  | .baseModelVal strForm (.error emsg) =>
      { success := true
        data := some [("result", strForm), ("error", emsg)]
        error := none }
  | .mappingVal fields => { success := true, data := some fields, error := none }
  | .opaqueVal strForm =>
      { success := true, data := some [("result", strForm)], error := none }

/-- The `/extract` route handler `extract_information` (`fact_check.py`
lines 26–101). `construction` abstracts the dynamic-schema construction
(lines 34–65): `.error e` when it raises, in which case the outer `except`
answers. Returns the response together with the fact checker's stored
documents after the call. -/
def extract_route (construction : Except PyErr Unit)
    (modelExtract : Option String → String → Except PyErr ExtractRet)
    (stored_documents : List Document) (query context : Option String)
    (documents : Option (List Document)) :
    ExtractionResponse × List Document :=
  match construction with
  | .error e =>
      ({ success := false, data := none
         error := some ("Extraction failed: " ++ e.str) }, stored_documents)
  | .ok _ =>
    let pr :=
      extract_information modelExtract stored_documents query context documents
    match pr.1 with
    | .errorDict msg =>
        ({ success := false, data := none, error := some msg }, pr.2)
    | .extracted r =>
      match r with
      | .mappingVal fields =>
        match fields.lookup "error" with
        | some msg =>
            ({ success := false, data := none, error := some msg }, pr.2)
        | none => (normalize_extraction r, pr.2)
      | _ => (normalize_extraction r, pr.2)

/-! ## Helper lemmas -/

lemma sum_indicator_eq_length_filter {α : Type} (p : α → Bool) (l : List α) :
    (l.map (fun x => if p x then (1 : Nat) else 0)).sum = (l.filter p).length := by
  induction l with
  | nil => rfl
  | cons a l ih => by_cases h : p a <;> simp [List.filter_cons, h, ih, Nat.add_comm]

lemma estimate_confidence_of_refusal (text : String) (has_context : Bool)
    (h : contains_refusal_phrases text = true) :
    estimate_confidence text has_context = 1/10 := by
  simp [estimate_confidence, h]

lemma estimate_confidence_of_no_refusal (text : String) (has_context : Bool)
    (h : contains_refusal_phrases text = false) :
    estimate_confidence text has_context =
      max (1/10)
        ((if has_context then (9 : ℚ)/10 else 3/10) -
          (1/10) * (markers_count text : ℚ)) := by
  simp [estimate_confidence, h]

lemma base_le_nine_tenths (has_context : Bool) :
    (if has_context then (9 : ℚ)/10 else 3/10) ≤ 9/10 := by
  cases has_context <;> norm_num

lemma estimate_confidence_mem_Icc (text : String) (has_context : Bool) :
    1/10 ≤ estimate_confidence text has_context ∧
      estimate_confidence text has_context ≤ 9/10 := by
  by_cases h : contains_refusal_phrases text = true
  · rw [estimate_confidence_of_refusal text has_context h]
    norm_num
  · rw [estimate_confidence_of_no_refusal text has_context (by simpa using h)]
    refine ⟨le_max_left _ _, max_le (by norm_num) ?_⟩
    calc (if has_context then (9 : ℚ)/10 else 3/10) -
          (1/10) * (markers_count text : ℚ)
        ≤ (if has_context then (9 : ℚ)/10 else 3/10) := by
          exact sub_le_self _ (by positivity)
      _ ≤ 9/10 := base_le_nine_tenths has_context

/-! ## Claims about the refusal detector and the confidence heuristic -/

/-- Claim C5: the refusal detector returns `true` exactly when one of the
eight fixed refusal phrases occurs, case-insensitively, as a substring of
the text; on text containing none it returns `false`. The embedded
function is pure by construction, with no model dependence. -/
theorem contains_refusal_phrases_iff (text : String) :
    contains_refusal_phrases text = true ↔
      ∃ phrase ∈ refusal_phrases,
        strContains (strLower text) (strLower phrase) = true := by
  simp [contains_refusal_phrases, List.any_eq_true]

/-- Claim C2, counterexample: the text `"maybe maybe"` contains two
occurrences of the marker `"maybe"` (and of no other marker), so the claim
predicts `max(0.1, 0.9 - 0.1 * 2) = 0.7` with context, but the code counts
each marker at most once and returns `0.8`. -/
theorem repeated_marker_counterexample :
    total_marker_occurrences "maybe maybe" = 2 ∧
    max (1/10 : ℚ) (9/10 - (1/10) * 2) = 7/10 ∧
    estimate_confidence "maybe maybe" true = 8/10 := by
  refine ⟨by decide, by rw [max_eq_right (by norm_num)]; norm_num, ?_⟩
  rw [estimate_confidence_of_no_refusal _ _ (by decide),
    show markers_count "maybe maybe" = 1 from by decide]
  rw [if_pos rfl, max_eq_right (by norm_num)]
  norm_num

/-- Claim C2 as amended: each uncertainty marker that occurs in the text
(counted once per distinct marker, no matter how many of its occurrences
the text contains) subtracts 0.1 from the base confidence — 0.9 with
context, 0.3 without — floored at 0.1, provided no refusal phrase is
present. -/
theorem estimate_confidence_distinct_marker_penalty (text : String)
    (has_context : Bool) (h : contains_refusal_phrases text = false) :
    estimate_confidence text has_context =
      max (1/10)
        ((if has_context then (9 : ℚ)/10 else 3/10) -
          (1/10) * ((uncertainty_markers.filter
            (fun marker =>
              strContains (strLower text) (strLower marker))).length : ℚ)) := by
  rw [estimate_confidence_of_no_refusal text has_context h, markers_count,
    sum_indicator_eq_length_filter]

/-- Witness for the amended claim C2 at the text `"It seems likely"`,
which contains the two distinct markers `"seems"` and `"likely"`. -/
theorem estimate_confidence_distinct_marker_penalty_witness :
    estimate_confidence "It seems likely" true =
      max (1/10)
        ((if true then (9 : ℚ)/10 else 3/10) -
          (1/10) * ((uncertainty_markers.filter
            (fun marker =>
              strContains (strLower "It seems likely")
                (strLower marker))).length : ℚ)) :=
  estimate_confidence_distinct_marker_penalty "It seems likely" true (by decide)

/-- Claim C6: for fixed `has_context` the confidence estimate is
monotonically non-increasing in the uncertainty-marker count, its value
always lies in `[0.1, 0.9]`, and a refusal phrase forces the value to
exactly 0.1 regardless of the markers and of `has_context`. -/
theorem estimate_confidence_shape :
    (∀ (has_context : Bool) (t1 t2 : String),
        contains_refusal_phrases t1 = false →
        markers_count t1 ≤ markers_count t2 →
        estimate_confidence t2 has_context ≤ estimate_confidence t1 has_context) ∧
    (∀ (text : String) (has_context : Bool),
        1/10 ≤ estimate_confidence text has_context ∧
          estimate_confidence text has_context ≤ 9/10) ∧
    (∀ (text : String) (has_context : Bool),
        contains_refusal_phrases text = true →
        estimate_confidence text has_context = 1/10) := by
  refine ⟨?_, estimate_confidence_mem_Icc, estimate_confidence_of_refusal⟩
  intro has_context t1 t2 h1 hle
  rw [estimate_confidence_of_no_refusal t1 has_context h1]
  by_cases h2 : contains_refusal_phrases t2 = true
  · rw [estimate_confidence_of_refusal t2 has_context h2]
    exact le_max_left _ _
  · rw [estimate_confidence_of_no_refusal t2 has_context (by simpa using h2)]
    refine max_le_max le_rfl (sub_le_sub_left ?_ _)
    have : (markers_count t1 : ℚ) ≤ (markers_count t2 : ℚ) := by
      exact_mod_cast hle
    nlinarith

/-- Witness for claim C6: monotonicity at `"likely"` versus
`"likely maybe"`, the range at `"whatever"` without context, and the
refusal override at `"I cannot answer that"`. -/
theorem estimate_confidence_shape_witness :
    estimate_confidence "likely maybe" true ≤
        estimate_confidence "likely" true ∧
    (1/10 ≤ estimate_confidence "whatever" false ∧
        estimate_confidence "whatever" false ≤ 9/10) ∧
    estimate_confidence "I cannot answer that" false = 1/10 :=
  ⟨estimate_confidence_shape.1 true "likely" "likely maybe" (by decide)
      (by decide),
   estimate_confidence_shape.2.1 "whatever" false,
   estimate_confidence_shape.2.2 "I cannot answer that" false (by decide)⟩

/-! ## Claims about the verification orchestrator -/

/-- Claim C7: `check_fact` with an empty query returns the structured error
result — `factual` false, `confidence` 0, empty `sources`, the `error` key
set — leaving stored documents alone, and without invoking the model: the
outcome is literally the same function value for every model. -/
theorem check_fact_empty_query (model : TeapotModel)
    (stored_documents : List Document) (context : Option String)
    (documents : Option (List Document)) :
    (check_fact model stored_documents "" context documents).1.factual = false ∧
    (check_fact model stored_documents "" context documents).1.confidence = 0 ∧
    (check_fact model stored_documents "" context documents).1.sources = [] ∧
    (check_fact model stored_documents "" context documents).1.error =
      some "Query cannot be empty" ∧
    (∀ modelB : TeapotModel,
        check_fact model stored_documents "" context documents =
          check_fact modelB stored_documents "" context documents) :=
  ⟨rfl, rfl, rfl, rfl, fun _ => rfl⟩

/-- Claim C1: on a non-empty query, when the underlying model call raises —
whatever the path taken and whatever the kind of error — `check_fact`
returns (rather than raises) the recovered error result: `factual` false,
`confidence` 0, empty `sources`, and `answer` the formatted error
message. -/
theorem check_fact_recovers_model_errors (e : PyErr) (dp : DocsProp)
    (stored_documents : List Document) (query : String)
    (context : Option String) (documents : Option (List Document))
    (h : query ≠ "") :
    (check_fact
        (TeapotModel.mk (fun _ _ => Except.error e) (fun _ => Except.error e) dp)
        stored_documents query context documents).1 =
      create_error_response (check_fact_error_text e) ∧
    (create_error_response (check_fact_error_text e)).factual = false ∧
    (create_error_response (check_fact_error_text e)).confidence = 0 ∧
    (create_error_response (check_fact_error_text e)).sources = [] ∧
    (create_error_response (check_fact_error_text e)).answer =
      check_fact_error_text e := by
  refine ⟨?_, rfl, rfl, rfl, rfl⟩
  rw [check_fact, if_neg h]
  split_ifs with hd hc
  · simp [process_with_documents, process_without_context, recover_errors,
      Except.map]
  · simp [process_with_context, recover_errors, Except.map]
  · simp [process_without_context, recover_errors, Except.map]

/-- Witness for claim C1 at a concrete timeout on a concrete query. -/
theorem check_fact_recovers_model_errors_witness :
    (check_fact
        (TeapotModel.mk (fun _ _ => Except.error (PyErr.timeoutError "slow"))
          (fun _ => Except.error (PyErr.timeoutError "slow")) DocsProp.absent)
        [] "Is water wet?" none none).1 =
      create_error_response (check_fact_error_text (PyErr.timeoutError "slow")) :=
  (check_fact_recovers_model_errors (PyErr.timeoutError "slow") DocsProp.absent
    [] "Is water wet?" none none (by decide)).1

/-- The rebuild loop of `_process_with_documents` (building a fresh
`{"content": ..., "metadata": ...}` per document) is the identity on the
embedded document representation. -/
lemma rebuild_documents_id (docs : List Document) :
    docs.map (fun doc => Document.mk doc.content doc.metadata) = docs := by
  induction docs with
  | nil => rfl
  | cons d ds ih => simp [ih]

lemma recover_without_context_cases (model : TeapotModel)
    (stored : List Document) (query : String) :
    (∃ msg, recover_errors (process_without_context model stored query) =
        create_error_response msg) ∨
    (∃ answer, recover_errors (process_without_context model stored query) =
        process_result model stored answer false) := by
  rw [process_without_context]
  cases model.queryNoContext query with
  | error e => exact Or.inl ⟨_, rfl⟩
  | ok answer => exact Or.inr ⟨answer, rfl⟩

lemma recover_with_context_cases (model : TeapotModel)
    (stored : List Document) (query context : String) :
    (∃ msg, recover_errors (process_with_context model stored query context) =
        create_error_response msg) ∨
    (∃ answer, recover_errors (process_with_context model stored query context) =
        process_result model stored answer true) := by
  rw [process_with_context]
  cases model.queryWithContext query context with
  | error e => exact Or.inl ⟨_, rfl⟩
  | ok answer => exact Or.inr ⟨answer, rfl⟩

lemma recover_with_documents_cases (model : TeapotModel)
    (query : String) (docs : List Document) :
    (process_with_documents model query docs).2 = docs ∧
    ((∃ msg, recover_errors (process_with_documents model query docs).1 =
        create_error_response msg) ∨
     (∃ answer has_context,
        recover_errors (process_with_documents model query docs).1 =
          process_result model docs answer has_context)) := by
  constructor
  · rw [process_with_documents, rebuild_documents_id]
    split <;> rfl
  · simp only [process_with_documents, rebuild_documents_id]
    split
    · rcases recover_without_context_cases model docs query with ⟨msg, hm⟩ | ⟨a, ha⟩
      · exact Or.inl ⟨msg, hm⟩
      · exact Or.inr ⟨a, false, ha⟩
    · cases model.queryWithContext query
        (String.intercalate "\n\n"
          ((docs.map Document.content).filter (fun c => c != ""))) with
      | error e => exact Or.inl ⟨_, rfl⟩
      | ok answer => exact Or.inr ⟨answer, true, rfl⟩

/-- Every outcome of `check_fact` is either an error-response dictionary or
a `process_result` over some answer, context flag and stored documents. -/
lemma check_fact_result_cases (model : TeapotModel)
    (stored_documents : List Document) (query : String)
    (context : Option String) (documents : Option (List Document)) :
    (∃ msg, (check_fact model stored_documents query context documents).1 =
        create_error_response msg) ∨
    (∃ answer has_context stored,
        (check_fact model stored_documents query context documents).1 =
          process_result model stored answer has_context) := by
  rw [check_fact]
  split_ifs with h1 hd hc
  · exact Or.inl ⟨_, rfl⟩
  · rcases (recover_with_documents_cases model query (documents.getD [])).2 with
      ⟨msg, hm⟩ | ⟨a, b, ha⟩
    · exact Or.inl ⟨msg, hm⟩
    · exact Or.inr ⟨a, b, documents.getD [], ha⟩
  · rcases recover_with_context_cases model stored_documents query
      (context.getD "") with ⟨msg, hm⟩ | ⟨a, ha⟩
    · exact Or.inl ⟨msg, hm⟩
    · exact Or.inr ⟨a, true, stored_documents, ha⟩
  · rcases recover_without_context_cases model stored_documents query with
      ⟨msg, hm⟩ | ⟨a, ha⟩
    · exact Or.inl ⟨msg, hm⟩
    · exact Or.inr ⟨a, false, stored_documents, ha⟩

/-- Claim C10: whenever `check_fact` returns a non-error result (a model
answer was processed, on whichever of the three paths), `factual` is true
exactly when the answer contains no refusal phrase; it is a function of the
answer text alone. -/
theorem check_fact_factual_iff_no_refusal (model : TeapotModel)
    (stored_documents : List Document) (query : String)
    (context : Option String) (documents : Option (List Document))
    (h : (check_fact model stored_documents query context documents).1.error =
      none) :
    (check_fact model stored_documents query context documents).1.factual =
      !(contains_refusal_phrases
        (check_fact model stored_documents query context documents).1.answer) := by
  rcases check_fact_result_cases model stored_documents query context documents
    with ⟨msg, hm⟩ | ⟨a, b, st, ha⟩
  · rw [hm] at h
    exact absurd h (by simp [create_error_response])
  · rw [ha]
    rfl

/-- Witness for claim C10 on the no-context path with answer `"It is."`. -/
theorem check_fact_factual_iff_no_refusal_witness :
    (check_fact
        (TeapotModel.mk (fun _ _ => Except.ok "It is.")
          (fun _ => Except.ok "It is.") DocsProp.absent)
        [] "Is water wet?" none none).1.factual =
      !(contains_refusal_phrases
        (check_fact
            (TeapotModel.mk (fun _ _ => Except.ok "It is.")
              (fun _ => Except.ok "It is.") DocsProp.absent)
            [] "Is water wet?" none none).1.answer) :=
  check_fact_factual_iff_no_refusal _ [] "Is water wet?" none none rfl

/-- Claim C9: on the context path (non-empty query and context, documents
absent or empty) the stored-documents field is left exactly as previously
set, and on a successful model call the sources of the result are computed
from those previously stored documents. -/
theorem check_fact_context_path_frame (model : TeapotModel)
    (stored_documents : List Document) (query ctx : String)
    (documents : Option (List Document)) (hq : query ≠ "") (hctx : ctx ≠ "")
    (hdocs : documents = none ∨ documents = some []) :
    (check_fact model stored_documents query (some ctx) documents).2 =
      stored_documents ∧
    (∀ answer, model.queryWithContext query ctx = Except.ok answer →
        (check_fact model stored_documents query (some ctx) documents).1.sources =
          get_sources stored_documents model) := by
  have hd : ¬((documents.getD []).isEmpty = false) := by
    rcases hdocs with h | h <;> simp [h]
  have hc : ((some ctx).getD "" != "") = true := by
    simpa [bne_iff_ne] using hctx
  rw [check_fact, if_neg hq, if_neg hd, if_pos hc]
  refine ⟨rfl, fun answer ha => ?_⟩
  simp [process_with_context, ha, recover_errors, process_result, Except.map]

/-- Witness for claim C9: an earlier call stored one document; a context
call leaves it in place and sources come from it. -/
theorem check_fact_context_path_frame_witness :
    (check_fact
        (TeapotModel.mk (fun _ _ => Except.ok "Yes.")
          (fun _ => Except.ok "Yes.") DocsProp.absent)
        [Document.mk "earlier doc" []] "q" (some "c") none).2 =
      [Document.mk "earlier doc" []] ∧
    (check_fact
        (TeapotModel.mk (fun _ _ => Except.ok "Yes.")
          (fun _ => Except.ok "Yes.") DocsProp.absent)
        [Document.mk "earlier doc" []] "q" (some "c") none).1.sources =
      get_sources [Document.mk "earlier doc" []]
        (TeapotModel.mk (fun _ _ => Except.ok "Yes.")
          (fun _ => Except.ok "Yes.") DocsProp.absent) :=
  ⟨(check_fact_context_path_frame _ _ "q" "c" none (by decide) (by decide)
      (Or.inl rfl)).1,
   (check_fact_context_path_frame _ _ "q" "c" none (by decide) (by decide)
      (Or.inl rfl)).2 "Yes." rfl⟩

/-- Claim C8: on the documents path the combined context is the blank-line
concatenation, in input order, of the non-empty content fields; when it is
non-empty the model is queried with `(query, combined)` and confidence is
estimated with context; when every document's content is empty the call
falls through to the no-context path: the model is queried with only the
query and confidence is estimated with `has_context = false`. -/
theorem check_fact_documents_combined (qcf : String → String → String)
    (nf : String → String) (dp : DocsProp) (stored_documents : List Document)
    (query : String) (context : Option String) (docs : List Document)
    (hq : query ≠ "") (hd : docs.isEmpty = false) :
    (String.intercalate "\n\n"
        ((docs.map Document.content).filter (fun c => c != "")) ≠ "" →
      (check_fact
          (TeapotModel.mk (fun q c => Except.ok (qcf q c))
            (fun q => Except.ok (nf q)) dp)
          stored_documents query context (some docs)).1.answer =
        qcf query (String.intercalate "\n\n"
          ((docs.map Document.content).filter (fun c => c != ""))) ∧
      (check_fact
          (TeapotModel.mk (fun q c => Except.ok (qcf q c))
            (fun q => Except.ok (nf q)) dp)
          stored_documents query context (some docs)).1.confidence =
        estimate_confidence
          (qcf query (String.intercalate "\n\n"
            ((docs.map Document.content).filter (fun c => c != "")))) true) ∧
    ((∀ d ∈ docs, d.content = "") →
      (check_fact
          (TeapotModel.mk (fun q c => Except.ok (qcf q c))
            (fun q => Except.ok (nf q)) dp)
          stored_documents query context (some docs)).1.answer = nf query ∧
      (check_fact
          (TeapotModel.mk (fun q c => Except.ok (qcf q c))
            (fun q => Except.ok (nf q)) dp)
          stored_documents query context (some docs)).1.confidence =
        estimate_confidence (nf query) false) := by
  rw [check_fact]
  simp only [Option.getD_some]
  rw [if_neg hq, if_pos hd]
  refine ⟨fun hcomb => ?_, fun hall => ?_⟩
  · simp only [process_with_documents, rebuild_documents_id]
    rw [if_neg hcomb]
    exact ⟨rfl, rfl⟩
  · have hfil : (docs.map Document.content).filter (fun c => c != "") = [] := by
      rw [List.filter_eq_nil_iff]
      intro c hc
      rcases List.mem_map.mp hc with ⟨d, hdmem, rfl⟩
      simp [hall d hdmem]
    have hcomb : String.intercalate "\n\n"
        ((docs.map Document.content).filter (fun c => c != "")) = "" := by
      rw [hfil]; rfl
    simp only [process_with_documents, rebuild_documents_id]
    rw [if_pos hcomb]
    exact ⟨rfl, rfl⟩

/-- Witness for claim C8: one document with content takes the context path
with the combined context; one all-empty document falls through to the
no-context path. -/
theorem check_fact_documents_combined_witness :
    (check_fact
        (TeapotModel.mk (fun q c => Except.ok (q ++ " | " ++ c))
          (fun q => Except.ok ("alone " ++ q)) DocsProp.absent)
        [] "q" none (some [Document.mk "d1" []])).1.answer =
      "q" ++ " | " ++ (String.intercalate "\n\n"
        (([Document.mk "d1" []].map Document.content).filter (fun c => c != ""))) ∧
    (check_fact
        (TeapotModel.mk (fun q c => Except.ok (q ++ " | " ++ c))
          (fun q => Except.ok ("alone " ++ q)) DocsProp.absent)
        [] "q" none (some [Document.mk "" []])).1.confidence =
      estimate_confidence ("alone " ++ "q") false :=
  ⟨((check_fact_documents_combined (fun q c => q ++ " | " ++ c)
      (fun q => "alone " ++ q) DocsProp.absent [] "q" none [Document.mk "d1" []]
      (by decide) (by decide)).1 (by decide)).1,
   ((check_fact_documents_combined (fun q c => q ++ " | " ++ c)
      (fun q => "alone " ++ q) DocsProp.absent [] "q" none [Document.mk "" []]
      (by decide) (by decide)).2 (by decide)).2⟩

/-! ## Claims about the source normalizer -/

lemma get_sources_nil_avail (qc : String → String → Except PyErr String)
    (qn : String → Except PyErr String) (docs : List ModelDoc) :
    get_sources [] (TeapotModel.mk qc qn (DocsProp.avail docs)) =
      if docs.isEmpty then [] else processFallbackDocs docs := rfl

lemma processFallbackDocs_append_raising (good rest : List ModelDoc)
    (e : PyErr)
    (hgood : ∀ d ∈ good, (normalizeModelDoc d).isSome = true) :
    processFallbackDocs (good ++ ModelDoc.raising e :: rest) =
      good.filterMap normalizeModelDoc := by
  induction good with
  | nil => rfl
  | cons d ds ih =>
    have hd := hgood d (List.mem_cons_self d ds)
    rcases hsome : normalizeModelDoc d with _ | entry
    · rw [hsome] at hd
      exact absurd hd (by simp)
    · simp only [List.cons_append, processFallbackDocs, hsome,
        List.filterMap_cons, List.append_eq]
      rw [ih (fun x hx => hgood x (List.mem_cons_of_mem d hx))]

/-- Claim C4, counterexample: stored documents are empty and iterating the
fallback documents fails at the second element, yet the returned source
list is not empty — the entry appended before the failure is kept. -/
theorem get_sources_midfail_counterexample :
    get_sources []
        (TeapotModel.mk (fun _ _ => Except.ok "") (fun _ => Except.ok "")
          (DocsProp.avail
            [ModelDoc.plainStr "salvaged",
             ModelDoc.raising (PyErr.other "boom")])) =
      [SourceEntry.mk "salvaged" []] ∧
    get_sources []
        (TeapotModel.mk (fun _ _ => Except.ok "") (fun _ => Except.ok "")
          (DocsProp.avail
            [ModelDoc.plainStr "salvaged",
             ModelDoc.raising (PyErr.other "boom")])) ≠ [] := by
  constructor
  · rfl
  · decide

/-- Claim C4 as amended: a failure reading the fallback `documents`
attribute (missing attribute, unreadable or non-iterable value) yields an
empty source list, and a failure while iterating yields exactly the entries
normalized before the failure point — empty when the failure is at the
first element; in every case the failure is swallowed, never fatal. -/
theorem get_sources_fallback_failure (qc : String → String → Except PyErr String)
    (qn : String → Except PyErr String) (e : PyErr)
    (good rest : List ModelDoc)
    (hgood : ∀ d ∈ good, (normalizeModelDoc d).isSome = true) :
    get_sources [] (TeapotModel.mk qc qn DocsProp.absent) = [] ∧
    get_sources [] (TeapotModel.mk qc qn (DocsProp.raises e)) = [] ∧
    get_sources []
        (TeapotModel.mk qc qn
          (DocsProp.avail (good ++ ModelDoc.raising e :: rest))) =
      good.filterMap normalizeModelDoc := by
  refine ⟨rfl, rfl, ?_⟩
  have hne : (good ++ ModelDoc.raising e :: rest).isEmpty = false := by
    cases good <;> rfl
  rw [get_sources_nil_avail, if_neg (by simp [hne]),
    processFallbackDocs_append_raising good rest e hgood]

/-- Witness for the amended claim C4: absent attribute, raising read, and a
mid-iteration failure after one good element. -/
theorem get_sources_fallback_failure_witness :
    get_sources []
        (TeapotModel.mk (fun _ _ => Except.ok "") (fun _ => Except.ok "")
          DocsProp.absent) = [] ∧
    get_sources []
        (TeapotModel.mk (fun _ _ => Except.ok "") (fun _ => Except.ok "")
          (DocsProp.raises (PyErr.other "read failed"))) = [] ∧
    get_sources []
        (TeapotModel.mk (fun _ _ => Except.ok "") (fun _ => Except.ok "")
          (DocsProp.avail
            [ModelDoc.contentObj "kept" none,
             ModelDoc.raising (PyErr.other "read failed")])) =
      [ModelDoc.contentObj "kept" none].filterMap normalizeModelDoc :=
  get_sources_fallback_failure (fun _ _ => Except.ok "")
    (fun _ => Except.ok "") (PyErr.other "read failed")
    [ModelDoc.contentObj "kept" none] [] (by decide)

/-! ## Claims about the structured-extraction route -/

/-- Claim C3, counterexample: when the model's extraction value itself is
fine but normalizing it fails (`model_dump()` raises), the route reports
`success=true` — not `success=false` — and embeds the error message inside
`data`, so a "successful" response carries an error. -/
theorem extract_normalization_failure_counterexample :
    (extract_route (Except.ok ())
        (fun _ _ => Except.ok
          (ExtractRet.baseModelVal "DynamicExtractionModel()"
            (Except.error "model_dump failed")))
        [] none (some "Paris is the capital of France.") none).1 =
      ExtractionResponse.mk true
        (some [("result", "DynamicExtractionModel()"),
               ("error", "model_dump failed")]) none ∧
    (extract_route (Except.ok ())
        (fun _ _ => Except.ok
          (ExtractRet.baseModelVal "DynamicExtractionModel()"
            (Except.error "model_dump failed")))
        [] none (some "Paris is the capital of France.") none).1.success =
      true :=
  ⟨rfl, rfl⟩

/-- Claim C3 as amended: schema-construction failures and failures inside
the service delegation (including the missing-context error) are caught and
reported with `success=false` and an error message; a failure while
normalizing the model's result is caught but reported with `success=true`,
the stringified result and the error message being embedded in the data
mapping; a successful normalization reports `success=true` with no error;
no exception reaches the caller. -/
theorem extract_route_error_reporting :
    (∀ (e : PyErr)
        (modelExtract : Option String → String → Except PyErr ExtractRet)
        (stored : List Document) (query context : Option String)
        (documents : Option (List Document)),
        (extract_route (Except.error e) modelExtract stored query context
            documents).1 =
          ExtractionResponse.mk false none
            (some ("Extraction failed: " ++ e.str))) ∧
    (∀ (e : PyErr) (stored : List Document) (query context : Option String)
        (documents : Option (List Document)),
        (extract_route (Except.ok ()) (fun _ _ => Except.error e) stored
            query context documents).1.success = false ∧
        (extract_route (Except.ok ()) (fun _ _ => Except.error e) stored
            query context documents).1.data = none ∧
        ((extract_route (Except.ok ()) (fun _ _ => Except.error e) stored
            query context documents).1.error =
              some ("Extraction failed: " ++ e.str) ∨
         (extract_route (Except.ok ()) (fun _ _ => Except.error e) stored
            query context documents).1.error =
              some "Context is required for information extraction")) ∧
    (∀ (strForm emsg : String) (stored : List Document)
        (query : Option String) (ctx : String), ctx ≠ "" →
        (extract_route (Except.ok ())
            (fun _ _ => Except.ok
              (ExtractRet.baseModelVal strForm (Except.error emsg)))
            stored query (some ctx) none).1 =
          ExtractionResponse.mk true
            (some [("result", strForm), ("error", emsg)]) none) ∧
    (∀ (strForm : String) (fields : List (String × String))
        (stored : List Document) (query : Option String) (ctx : String),
        ctx ≠ "" →
        (extract_route (Except.ok ())
            (fun _ _ => Except.ok
              (ExtractRet.baseModelVal strForm (Except.ok fields)))
            stored query (some ctx) none).1 =
          ExtractionResponse.mk true (some fields) none) := by
  refine ⟨fun e mE stored query context documents => rfl, ?_, ?_, ?_⟩
  · intro e stored query context documents
    have H :
        (extract_route (Except.ok ()) (fun _ _ => Except.error e) stored
            query context documents).1 =
          ExtractionResponse.mk false none
            (some "Context is required for information extraction") ∨
        (extract_route (Except.ok ()) (fun _ _ => Except.error e) stored
            query context documents).1 =
          ExtractionResponse.mk false none
            (some ("Extraction failed: " ++ e.str)) := by
      simp only [extract_route, extract_information]
      split_ifs <;> first | exact Or.inl rfl | exact Or.inr rfl
    rcases H with h | h <;> rw [h]
    · exact ⟨rfl, rfl, Or.inr rfl⟩
    · exact ⟨rfl, rfl, Or.inl rfl⟩
  · intro strForm emsg stored query ctx hctx
    simp only [extract_route, extract_information]
    split_ifs <;> first | (exfalso; simp_all; done) | rfl
  · intro strForm fields stored query ctx hctx
    simp only [extract_route, extract_information]
    split_ifs <;> first | (exfalso; simp_all; done) | rfl

/-- Witness for the amended claim C3: a construction failure, a delegation
failure, a normalization failure and a clean success, each at concrete
inputs. -/
theorem extract_route_error_reporting_witness :
    (extract_route (Except.error (PyErr.valueError "bad schema"))
        (fun _ _ => Except.error (PyErr.other "unused")) [] none none none).1 =
      ExtractionResponse.mk false none
        (some ("Extraction failed: " ++ (PyErr.valueError "bad schema").str)) ∧
    (extract_route (Except.ok ())
        (fun _ _ => Except.error (PyErr.timeoutError "slow")) [] none
        (some "some context") none).1.success = false ∧
    (extract_route (Except.ok ())
        (fun _ _ => Except.ok
          (ExtractRet.baseModelVal "M()" (Except.error "dump")))
        [] none (some "some context") none).1 =
      ExtractionResponse.mk true
        (some [("result", "M()"), ("error", "dump")]) none ∧
    (extract_route (Except.ok ())
        (fun _ _ => Except.ok
          (ExtractRet.baseModelVal "M()" (Except.ok [("city", "Paris")])))
        [] none (some "some context") none).1 =
      ExtractionResponse.mk true (some [("city", "Paris")]) none :=
  ⟨extract_route_error_reporting.1 (PyErr.valueError "bad schema")
      (fun _ _ => Except.error (PyErr.other "unused")) [] none none none,
   (extract_route_error_reporting.2.1 (PyErr.timeoutError "slow") [] none
      (some "some context") none).1,
   extract_route_error_reporting.2.2.1 "M()" "dump" [] none "some context"
      (by decide),
   extract_route_error_reporting.2.2.2 "M()" [("city", "Paris")] [] none
      "some context" (by decide)⟩

end TeapotFacts
